import Mathlib

/-!
Shallow embedding of `src/mcp_google_sheets/server.py` (Google Spreadsheet
MCP server).  Remote Google API services are modelled as environments
mapping an `ApiCall` to a response (or a raised fault); each tool is a pure
function that returns the ordered trace of remote calls it issued together
with its outcome (a returned value, or a propagated fault).
-/

set_option autoImplicit false

namespace MCPSheets

/-- JSON-like values: the payloads exchanged with the remote APIs and the
structured results returned by the tools (Python dicts keep insertion
order, so objects are ordered key/value lists). -/
inductive J where
  | str : String → J
  | num : Int → J
  | bool : Bool → J
  | null : J
  | arr : List J → J
  | obj : List (String × J) → J

/-- First value bound to `k` in an ordered key/value list. -/
def lookupKey (k : String) : List (String × J) → Option J
  | [] => none
  | (k', v) :: rest => if k' = k then some v else lookupKey k rest

/-- Python `d[k]`: key lookup that raises (`KeyError` / `TypeError`) when
the key is absent or the value is not a dict. -/
def J.index (j : J) (k : String) : Except String J :=
  match j with
  | J.obj kvs =>
      match lookupKey k kvs with
      | some v => Except.ok v
      | none => Except.error ("KeyError: " ++ k)
  | _ => Except.error "TypeError: not a dict"

/-- Python `d.get(k, default)`: total on dicts, raises on non-dicts. -/
def J.getE (j : J) (k : String) (default : J) : Except String J :=
  match j with
  | J.obj kvs =>
      match lookupKey k kvs with
      | some v => Except.ok v
      | none => Except.ok default
  | _ => Except.error "AttributeError: not a dict"

/-- Python `for x in l`: iterating requires a list. -/
def J.asArr (j : J) : Except String (List J) :=
  match j with
  | J.arr l => Except.ok l
  | _ => Except.error "TypeError: not iterable"

/-- Python `k in d` on a dict result. -/
def J.hasKey (j : J) (k : String) : Bool :=
  match j with
  | J.obj kvs => (lookupKey k kvs).isSome
  | _ => false

/-- A 2D Python value array as a JSON value. -/
def J.arr2 (data : List (List J)) : J :=
  J.arr (data.map J.arr)

/-- The remote API requests the server can issue, with the arguments the
source passes to the client stubs. -/
inductive ApiCall where
  | getSpreadsheet (spreadsheetId : String)
  | valuesGet (spreadsheetId range : String)
  | valuesUpdate (spreadsheetId range valueInputOption : String) (body : J)
  | valuesBatchUpdate (spreadsheetId : String) (body : J)
  | batchUpdate (spreadsheetId : String) (body : J)
  | copyTo (spreadsheetId : String) (sheetId : J) (body : J)
  | createSpreadsheet (body : J) (fields : String)
  | driveGetFile (fileId : J) (fields : String)
  | driveUpdateFile (fileId : J) (addParents removeParents fields : String)
  | driveList (q spaces fields orderBy : String)

/-- A remote service: deterministic response (or raised fault) per call. -/
def Env : Type := ApiCall → Except String J

/-- A tool computation: the ordered trace of issued remote calls, and the
outcome (returned value or propagated fault). -/
abbrev ToolM (α : Type) : Type := List ApiCall × Except String α

def tpure {α : Type} (a : α) : ToolM α := ([], Except.ok a)

def tbind {α β : Type} (x : ToolM α) (f : α → ToolM β) : ToolM β :=
  match x with
  | (cs, Except.ok a) => (cs ++ (f a).1, (f a).2)
  | (cs, Except.error e) => (cs, Except.error e)

instance : Monad ToolM where
  pure := tpure
  bind := tbind

/-- Issue one remote call: it is appended to the trace and its response
(or fault) becomes the computation's outcome. -/
def callApi (env : Env) (c : ApiCall) : ToolM J := ([c], env c)

/-- Lift a local (no remote call) computation into the tool monad. -/
def liftE {α : Type} (e : Except String α) : ToolM α := ([], e)

theorem tbind_def {α β : Type} (x : ToolM α) (f : α → ToolM β) :
    (x >>= f) = tbind x f := rfl

theorem tbind_ok {α β : Type} (cs : List ApiCall) (a : α) (f : α → ToolM β) :
    tbind (cs, Except.ok a) f = (cs ++ (f a).1, (f a).2) := rfl

theorem tbind_error {α β : Type} (cs : List ApiCall) (e : String)
    (f : α → ToolM β) : tbind (cs, Except.error e) f = (cs, Except.error e) := rfl

/-- The sheet-name → sheet-id scan shared by six tools:
`for s in spreadsheet['sheets']: if s['properties']['title'] == sheet:
sheet_id = s['properties']['sheetId']; break`.  Returns `J.null` (Python
`None`) when no title matches; missing `properties`/`title`/`sheetId`
fields raise. -/
def scanSheets (name : String) : List J → Except String J
  | [] => Except.ok J.null
  | s :: rest => do
      let props ← s.index "properties"
      let title ← props.index "title"
      match title with
      | J.str t => if t = name then props.index "sheetId" else scanSheets name rest
      | _ => scanSheets name rest

/-- The `insertDimension` batch-update body built by `add_rows` /
`add_columns`: `startIndex = start if start is not None else 0`,
`endIndex = startIndex + count`,
`inheritFromBefore = start is not None and start > 0`. -/
def insertDimensionBody (sheetId : J) (dimension : String) (start : Option Int)
    (count : Int) : J :=
  J.obj [("requests", J.arr [J.obj [("insertDimension", J.obj [
    ("range", J.obj [
      ("sheetId", sheetId),
      ("dimension", J.str dimension),
      ("startIndex", J.num (match start with | some s => s | none => 0)),
      ("endIndex", J.num ((match start with | some s => s | none => 0) + count))]),
    ("inheritFromBefore",
      J.bool (match start with | some s => decide (s > 0) | none => false))])]])]

/-- The `updateSheetProperties` batch-update body built by `copy_sheet`
(rename step) and `rename_sheet`. -/
def updateSheetTitleBody (sheetId : J) (title : String) : J :=
  J.obj [("requests", J.arr [J.obj [("updateSheetProperties", J.obj [
    ("properties", J.obj [("sheetId", sheetId), ("title", J.str title)]),
    ("fields", J.str "title")])]])]

/-- `get_sheet_data`: one read call over `sheet!range` (or the bare sheet
name when no range is given); `result.get('values', [])`. -/
def get_sheet_data (env : Env) (spreadsheet_id sheet : String)
    (range : Option String) : ToolM J := do
  let full_range := match range with | some r => sheet ++ "!" ++ r | none => sheet
  let result ← callApi env (ApiCall.valuesGet spreadsheet_id full_range)
  liftE (result.getE "values" (J.arr []))

/-- `update_cells`: one `values().update` call against `sheet!range` with
`valueInputOption='USER_ENTERED'` and body `{'values': data}`. -/
def update_cells (env : Env) (spreadsheet_id sheet range : String)
    (data : List (List J)) : ToolM J :=
  callApi env (ApiCall.valuesUpdate spreadsheet_id (sheet ++ "!" ++ range)
    "USER_ENTERED" (J.obj [("values", J.arr2 data)]))

/-- `batch_update_cells`: qualifies every given range with the one sheet
name and issues a single `values().batchUpdate` call. -/
def batch_update_cells (env : Env) (spreadsheet_id sheet : String)
    (ranges : List (String × List (List J))) : ToolM J :=
  callApi env (ApiCall.valuesBatchUpdate spreadsheet_id
    (J.obj [("valueInputOption", J.str "USER_ENTERED"),
            ("data", J.arr (ranges.map (fun rv =>
              J.obj [("range", J.str (sheet ++ "!" ++ rv.1)),
                     ("values", J.arr2 rv.2)])))]))

/-- `add_rows`: metadata fetch, sheet-id scan, then either the structured
not-found result or one structural insert call. -/
def add_rows (env : Env) (spreadsheet_id sheet : String) (count : Int)
    (start_row : Option Int) : ToolM J := do
  let spreadsheet ← callApi env (ApiCall.getSpreadsheet spreadsheet_id)
  let sheets ← liftE (spreadsheet.index "sheets")
  let l ← liftE sheets.asArr
  let sheet_id ← liftE (scanSheets sheet l)
  match sheet_id with
  | J.null => pure (J.obj [("error", J.str ("Sheet '" ++ sheet ++ "' not found"))])
  | sid => callApi env (ApiCall.batchUpdate spreadsheet_id
      (insertDimensionBody sid "ROWS" start_row count))

/-- `add_columns`: same shape as `add_rows` with dimension `COLUMNS`. -/
def add_columns (env : Env) (spreadsheet_id sheet : String) (count : Int)
    (start_column : Option Int) : ToolM J := do
  let spreadsheet ← callApi env (ApiCall.getSpreadsheet spreadsheet_id)
  let sheets ← liftE (spreadsheet.index "sheets")
  let l ← liftE sheets.asArr
  let sheet_id ← liftE (scanSheets sheet l)
  match sheet_id with
  | J.null => pure (J.obj [("error", J.str ("Sheet '" ++ sheet ++ "' not found"))])
  | sid => callApi env (ApiCall.batchUpdate spreadsheet_id
      (insertDimensionBody sid "COLUMNS" start_column count))

/-- Title projection used by `list_sheets`:
`[sheet['properties']['title'] for sheet in spreadsheet['sheets']]`. -/
def sheetTitles : List J → Except String (List J)
  | [] => Except.ok []
  | s :: rest => do
      let props ← s.index "properties"
      let t ← props.index "title"
      let ts ← sheetTitles rest
      Except.ok (t :: ts)

/-- `list_sheets`: metadata fetch, project sheet titles in order. -/
def list_sheets (env : Env) (spreadsheet_id : String) : ToolM J := do
  let spreadsheet ← callApi env (ApiCall.getSpreadsheet spreadsheet_id)
  let sheets ← liftE (spreadsheet.index "sheets")
  let l ← liftE sheets.asArr
  let titles ← liftE (sheetTitles l)
  pure (J.arr titles)

/-- `'title' in copy_result and copy_result['title'] != dst_sheet`,
 on a dict response (a non-dict response yields no rename). -/
def needsRename (copy_result : J) (dst_sheet : String) : Bool :=
  match copy_result with
  | J.obj kvs =>
      match lookupKey "title" kvs with
      | some (J.str t) => t != dst_sheet
      | some _ => true
      | none => false
  | _ => false

/-- `copy_sheet`: source-sheet lookup, one `copyTo` call, and a follow-up
rename batch-update only when the copy response carries a `title` field
that differs from the requested destination name. -/
def copy_sheet (env : Env)
    (src_spreadsheet src_sheet dst_spreadsheet dst_sheet : String) : ToolM J := do
  let src ← callApi env (ApiCall.getSpreadsheet src_spreadsheet)
  let sheets ← liftE (src.index "sheets")
  let l ← liftE sheets.asArr
  let src_sheet_id ← liftE (scanSheets src_sheet l)
  match src_sheet_id with
  | J.null =>
      pure (J.obj [("error", J.str ("Source sheet '" ++ src_sheet ++ "' not found"))])
  | sid => do
      let copy_result ← callApi env (ApiCall.copyTo src_spreadsheet sid
        (J.obj [("destinationSpreadsheetId", J.str dst_spreadsheet)]))
      if needsRename copy_result dst_sheet then do
        let copy_sheet_id ← liftE (copy_result.index "sheetId")
        let rename_result ← callApi env (ApiCall.batchUpdate dst_spreadsheet
          (updateSheetTitleBody copy_sheet_id dst_sheet))
        pure (J.obj [("copy", copy_result), ("rename", rename_result)])
      else
        pure (J.obj [("copy", copy_result)])

/-- `rename_sheet`: sheet-id lookup, then either the structured not-found
result or one rename batch-update call. -/
def rename_sheet (env : Env) (spreadsheet sheet new_name : String) : ToolM J := do
  let spreadsheet_data ← callApi env (ApiCall.getSpreadsheet spreadsheet)
  let sheets ← liftE (spreadsheet_data.index "sheets")
  let l ← liftE sheets.asArr
  let sheet_id ← liftE (scanSheets sheet l)
  match sheet_id with
  | J.null => pure (J.obj [("error", J.str ("Sheet '" ++ sheet ++ "' not found"))])
  | sid => callApi env (ApiCall.batchUpdate spreadsheet (updateSheetTitleBody sid new_name))

def hexDigit (n : Nat) : Char :=
  if n < 10 then Char.ofNat (48 + n) else Char.ofNat (87 + n)

def hex4 (n : Nat) : String :=
  String.mk [hexDigit (n / 4096 % 16), hexDigit (n / 256 % 16),
             hexDigit (n / 16 % 16), hexDigit (n % 16)]

/-- One character under Python `json.dumps` default (`ensure_ascii`)
escaping. -/
def escapeChar (c : Char) : String :=
  if c = '"' then "\\\""
  else if c = '\\' then "\\\\"
  else if c = '\n' then "\\n"
  else if c = '\t' then "\\t"
  else if c = '\r' then "\\r"
  else if c.toNat = 8 then "\\b"
  else if c.toNat = 12 then "\\f"
  else if c.toNat < 32 then "\\u" ++ hex4 c.toNat
  else if c.toNat < 127 then String.singleton c
  else if c.toNat < 65536 then "\\u" ++ hex4 c.toNat
  else "\\u" ++ hex4 (55296 + (c.toNat - 65536) / 1024)
       ++ "\\u" ++ hex4 (56320 + (c.toNat - 65536) % 1024)

def quoteJ (s : String) : String :=
  "\"" ++ String.join (s.toList.map escapeChar) ++ "\""

def padJ (lvl : Nat) : String := String.mk (List.replicate (2 * lvl) ' ')

mutual

/-- Python `json.dumps(·, indent=2)` at nesting level `lvl`. -/
def dumpVal (lvl : Nat) : J → String
  | J.str s => quoteJ s
  | J.num n => toString n
  | J.bool b => if b then "true" else "false"
  | J.null => "null"
  | J.arr [] => "[]"
  | J.arr (x :: xs) => "[\n" ++ dumpArrItems lvl (x :: xs) ++ "\n" ++ padJ lvl ++ "]"
  | J.obj [] => "\x7b\x7d"
  | J.obj (kv :: kvs) =>
      "\x7b\n" ++ dumpObjItems lvl (kv :: kvs) ++ "\n" ++ padJ lvl ++ "\x7d"

def dumpArrItems (lvl : Nat) : List J → String
  | [] => ""
  | [x] => padJ (lvl + 1) ++ dumpVal (lvl + 1) x
  | x :: y :: xs =>
      padJ (lvl + 1) ++ dumpVal (lvl + 1) x ++ ",\n" ++ dumpArrItems lvl (y :: xs)

def dumpObjItems (lvl : Nat) : List (String × J) → String
  | [] => ""
  | [(k, v)] => padJ (lvl + 1) ++ quoteJ k ++ ": " ++ dumpVal (lvl + 1) v
  | (k, v) :: kv :: kvs =>
      padJ (lvl + 1) ++ quoteJ k ++ ": " ++ dumpVal (lvl + 1) v ++ ",\n"
        ++ dumpObjItems lvl (kv :: kvs)

end

/-- `json.dumps(info, indent=2)`. -/
def jsonDumps (j : J) : String := dumpVal 0 j

/-- One sheet entry of the `get_spreadsheet_info` payload:
`title` and `sheetId` are direct lookups, `gridProperties` defaults to the
empty object. -/
def infoSheet (s : J) : Except String J := do
  let props ← s.index "properties"
  let t ← props.index "title"
  let sid ← props.index "sheetId"
  let gp ← props.getE "gridProperties" (J.obj [])
  Except.ok (J.obj [("title", t), ("sheetId", sid), ("gridProperties", gp)])

def infoSheets : List J → Except String (List J)
  | [] => Except.ok []
  | s :: rest => do
      let i ← infoSheet s
      let rs ← infoSheets rest
      Except.ok (i :: rs)

/-- `get_spreadsheet_info`: metadata fetch, totalized projection of
`title` (default `"Unknown"`) and the sheets list (default `[]`),
serialized with `json.dumps(·, indent=2)`. -/
def get_spreadsheet_info (env : Env) (spreadsheet_id : String) : ToolM String := do
  let spreadsheet ← callApi env (ApiCall.getSpreadsheet spreadsheet_id)
  let props ← liftE (spreadsheet.getE "properties" (J.obj []))
  let title ← liftE (props.getE "title" (J.str "Unknown"))
  let sheetsVal ← liftE (spreadsheet.getE "sheets" (J.arr []))
  let l ← liftE sheetsVal.asArr
  let infos ← liftE (infoSheets l)
  pure (jsonDumps (J.obj [("title", title), ("sheets", J.arr infos)]))

/-- Python `try: ... except: pass` around a block: faults inside are
swallowed (calls already issued stay in the trace) and execution
continues. -/
def attempt (m : ToolM Unit) : ToolM Unit := (m.1, Except.ok ())

/-- `','.join(...)` over a list that must contain only strings. -/
def strList : List J → Except String (List String)
  | [] => Except.ok []
  | J.str s :: rest => do
      let ss ← strList rest
      Except.ok (s :: ss)
  | _ :: _ => Except.error "TypeError: sequence item is not a str"

/-- The folder-move block of `create_spreadsheet`: fetch current parents,
join them, move the file into the configured folder. -/
def folderMove (drive_env : Env) (spreadsheet_id : J) (folder_id : String) :
    ToolM Unit := do
  let file ← callApi drive_env (ApiCall.driveGetFile spreadsheet_id "parents")
  let parentsVal ← liftE (file.getE "parents" (J.arr []))
  let pl ← liftE parentsVal.asArr
  let ps ← liftE (strList pl)
  let previous_parents := String.intercalate "," ps
  let _ ← callApi drive_env (ApiCall.driveUpdateFile spreadsheet_id folder_id
    previous_parents "id, parents")
  pure ()

/-- `[sheet.get('properties', {}).get('title', 'Sheet1') for sheet in ...]`. -/
def createdSheetTitles : List J → Except String (List J)
  | [] => Except.ok []
  | s :: rest => do
      let props ← s.getE "properties" (J.obj [])
      let t ← props.getE "title" (J.str "Sheet1")
      let ts ← createdSheetTitles rest
      Except.ok (t :: ts)

/-- `create_spreadsheet`: one create call; when a working folder is
configured the folder-move block runs inside try/except; the result object
is built from the create response alone. -/
def create_spreadsheet (sheets_env drive_env : Env) (folder_id : Option String)
    (title : String) : ToolM J := do
  let spreadsheet ← callApi sheets_env (ApiCall.createSpreadsheet
    (J.obj [("properties", J.obj [("title", J.str title)])])
    "spreadsheetId,properties,sheets")
  let spreadsheet_id ← liftE (spreadsheet.getE "spreadsheetId" J.null)
  let _ ← (match folder_id with
    | some f => attempt (folderMove drive_env spreadsheet_id f)
    | none => pure ())
  let props ← liftE (spreadsheet.getE "properties" (J.obj []))
  let rtitle ← liftE (props.getE "title" (J.str title))
  let sheetsVal ← liftE (spreadsheet.getE "sheets" (J.arr []))
  let sl ← liftE sheetsVal.asArr
  let stitles ← liftE (createdSheetTitles sl)
  pure (J.obj [("spreadsheetId", spreadsheet_id),
               ("title", rtitle),
               ("sheets", J.arr stitles),
               ("folder", match folder_id with
                          | some f => J.str f
                          | none => J.str "root")])

/-- `create_sheet`: one `addSheet` batch-update call, then projection of
the new sheet's properties from the first reply. -/
def create_sheet (env : Env) (spreadsheet_id title : String) : ToolM J := do
  let result ← callApi env (ApiCall.batchUpdate spreadsheet_id
    (J.obj [("requests", J.arr [J.obj [("addSheet",
      J.obj [("properties", J.obj [("title", J.str title)])])]])]))
  let replies ← liftE (result.index "replies")
  let rl ← liftE replies.asArr
  let first ← liftE (match rl with
    | [] => Except.error "IndexError: list index out of range"
    | x :: _ => Except.ok x)
  let added ← liftE (first.index "addSheet")
  let new_sheet_props ← liftE (added.index "properties")
  let sid ← liftE (new_sheet_props.index "sheetId")
  let t ← liftE (new_sheet_props.index "title")
  let idx ← liftE (new_sheet_props.getE "index" J.null)
  pure (J.obj [("sheetId", sid), ("title", t), ("index", idx),
               ("spreadsheetId", J.str spreadsheet_id)])

/-- `[{'id': f['id'], 'title': f['name']} for f in files]`. -/
def fileItems : List J → Except String (List J)
  | [] => Except.ok []
  | f :: rest => do
      let i ← f.index "id"
      let n ← f.index "name"
      let ts ← fileItems rest
      Except.ok (J.obj [("id", i), ("title", n)] :: ts)

/-- `list_spreadsheets`: one storage listing filtered to the spreadsheet
mime type, scoped to the configured folder when present. -/
def list_spreadsheets (drive_env : Env) (folder_id : Option String) : ToolM J := do
  let query := "mimeType='application/vnd.google-apps.spreadsheet'"
    ++ (match folder_id with
        | some f => " and '" ++ f ++ "' in parents"
        | none => "")
  let results ← callApi drive_env (ApiCall.driveList query "drive"
    "files(id, name)" "modifiedTime desc")
  let files ← liftE (results.getE "files" (J.arr []))
  let fl ← liftE files.asArr
  let items ← liftE (fileItems fl)
  pure (J.arr items)

/-- Validity flags of a loaded OAuth credential object. -/
structure Cred where
  valid : Bool
  expired : Bool
  refresh_token : Bool

/-- The filesystem / library environment read by the startup code: which
credential files exist and whether each load / refresh / interactive-flow
step succeeds. -/
structure AuthEnv where
  /-- `SERVICE_ACCOUNT_PATH` is set and the file exists. -/
  saConfigured : Bool
  /-- `from_service_account_file` succeeds. -/
  saLoadOk : Bool
  /-- the token cache file (`TOKEN_PATH`) exists. -/
  tokenFileExists : Bool
  /-- loading the cached token succeeds (a malformed file raises). -/
  tokenLoadOk : Bool
  /-- flags of the cached credential, when one is loaded. -/
  cached : Cred
  /-- `creds.refresh(Request())` succeeds. -/
  refreshOk : Bool
  /-- the interactive OAuth flow succeeds. -/
  flowOk : Bool

/-- Which branch produced the final credential. -/
inductive CredSource where
  | serviceAccount
  | cachedToken
  | refreshedToken
  | newFlow

/-- Outcome of credential resolution: the credential's origin and whether
the token cache file was (over)written. -/
structure ResolveResult where
  source : CredSource
  tokenWritten : Bool

/-- The credential-resolution state machine of `spreadsheet_lifespan`:
service-account authentication first (a load failure falls back), else
the OAuth path, where the token cache file is written exactly in the
branch that ran a refresh or an interactive flow (the write sits inside
`if not creds or not creds.valid`). -/
def resolveCredentials (env : AuthEnv) : Except String ResolveResult :=
  if env.saConfigured && env.saLoadOk then
    Except.ok ⟨CredSource.serviceAccount, false⟩
  else if env.tokenFileExists then
    if !env.tokenLoadOk then Except.error "token load raised"
    else if env.cached.valid then Except.ok ⟨CredSource.cachedToken, false⟩
    else if env.cached.expired && env.cached.refresh_token then
      if env.refreshOk then Except.ok ⟨CredSource.refreshedToken, true⟩
      else Except.error "refresh raised"
    else if env.flowOk then Except.ok ⟨CredSource.newFlow, true⟩
    else Except.error "flow raised"
  else if env.flowOk then Except.ok ⟨CredSource.newFlow, true⟩
  else Except.error "flow raised"

/-- The resolver took the OAuth path: service-account key not configured,
missing, or failing to load. -/
def oauthPath (env : AuthEnv) : Bool := !(env.saConfigured && env.saLoadOk)

/-- The dataclass `SpreadsheetContext`: the two client handles and the
optional working-folder id, built once per process. -/
structure SpreadsheetContext where
  sheets_service : Env
  drive_service : Env
  folder_id : Option String := none

/-- One named tool invocation with its arguments. -/
inductive ToolCall where
  | getSheetData (spreadsheet_id sheet : String) (range : Option String)
  | updateCells (spreadsheet_id sheet range : String) (data : List (List J))
  | batchUpdateCells (spreadsheet_id sheet : String)
      (ranges : List (String × List (List J)))
  | addRows (spreadsheet_id sheet : String) (count : Int) (start_row : Option Int)
  | addColumns (spreadsheet_id sheet : String) (count : Int)
      (start_column : Option Int)
  | listSheets (spreadsheet_id : String)
  | copySheet (src_spreadsheet src_sheet dst_spreadsheet dst_sheet : String)
  | renameSheet (spreadsheet sheet new_name : String)
  | createSpreadsheet (title : String)
  | createSheet (spreadsheet_id title : String)
  | listSpreadsheets

/-- Dispatch one tool invocation against the shared context.  Each handler
in the source only reads `ctx.request_context.lifespan_context` fields and
never assigns to them, so the context handed to the next invocation is the
one received. -/
def dispatchTool (ctx : SpreadsheetContext) :
    ToolCall → SpreadsheetContext × ToolM J
  | ToolCall.getSheetData sid sheet range =>
      (ctx, get_sheet_data ctx.sheets_service sid sheet range)
  | ToolCall.updateCells sid sheet range data =>
      (ctx, update_cells ctx.sheets_service sid sheet range data)
  | ToolCall.batchUpdateCells sid sheet ranges =>
      (ctx, batch_update_cells ctx.sheets_service sid sheet ranges)
  | ToolCall.addRows sid sheet count start_row =>
      (ctx, add_rows ctx.sheets_service sid sheet count start_row)
  | ToolCall.addColumns sid sheet count start_column =>
      (ctx, add_columns ctx.sheets_service sid sheet count start_column)
  | ToolCall.listSheets sid =>
      (ctx, list_sheets ctx.sheets_service sid)
  | ToolCall.copySheet s ss d ds =>
      (ctx, copy_sheet ctx.sheets_service s ss d ds)
  | ToolCall.renameSheet sp sheet new_name =>
      (ctx, rename_sheet ctx.sheets_service sp sheet new_name)
  | ToolCall.createSpreadsheet title =>
      (ctx, create_spreadsheet ctx.sheets_service ctx.drive_service
        ctx.folder_id title)
  | ToolCall.createSheet sid title =>
      (ctx, create_sheet ctx.sheets_service sid title)
  | ToolCall.listSpreadsheets =>
      (ctx, list_spreadsheets ctx.drive_service ctx.folder_id)

/-- Run a sequence of tool invocations, threading the context through. -/
def runToolCalls (ctx : SpreadsheetContext) :
    List ToolCall → SpreadsheetContext × List (ToolM J)
  | [] => (ctx, [])
  | tc :: rest =>
      let step := dispatchTool ctx tc
      let more := runToolCalls step.1 rest
      (more.1, step.2 :: more.2)

/-! Helper lemmas for unfolding the two monads in proofs. -/

theorem tpure_def {α : Type} (a : α) : (pure a : ToolM α) = ([], Except.ok a) := rfl

theorem except_bind_ok {α β : Type} (a : α) (f : α → Except String β) :
    (Except.ok a >>= f) = f a := rfl

theorem except_bind_err {α β : Type} (e : String) (f : α → Except String β) :
    ((Except.error e : Except String α) >>= f) = Except.error e := rfl

theorem except_pure {α : Type} (a : α) :
    (pure a : Except String α) = Except.ok a := rfl

/-- The `properties` / `title` lookups on a sheet descriptor succeed. -/
def descReadable (s : J) : Bool :=
  match s.index "properties" with
  | Except.ok p =>
      match p.index "title" with
      | Except.ok _ => true
      | Except.error _ => false
  | Except.error _ => false

/-- The descriptor's title is exactly the string `name`. -/
def descTitleIs (s : J) (name : String) : Bool :=
  match s.index "properties" with
  | Except.ok p =>
      match p.index "title" with
      | Except.ok (J.str t) => t = name
      | Except.ok _ => false
      | Except.error _ => false
  | Except.error _ => false

/-- The scan passes over this descriptor without matching or faulting. -/
def scanSkips (name : String) (s : J) : Bool :=
  descReadable s && !(descTitleIs s name)

/-- A skipped descriptor leaves the scan's outcome unchanged. -/
theorem scanSheets_cons_skip (name : String) (s : J) (l : List J)
    (hs : scanSkips name s = true) :
    scanSheets name (s :: l) = scanSheets name l := by
  cases hp : s.index "properties" with
  | error e => simp [scanSkips, descReadable, hp] at hs
  | ok p =>
      cases ht : p.index "title" with
      | error e => simp [scanSkips, descReadable, hp, ht] at hs
      | ok v =>
          cases v with
          | str t =>
              simp only [scanSkips, descReadable, descTitleIs, hp, ht,
                Bool.true_and, Bool.not_eq_eq_eq_not, Bool.not_true,
                decide_eq_false_iff_not] at hs
              simp [scanSheets, hp, ht, except_bind_ok, hs]
          | num n => simp [scanSheets, hp, ht, except_bind_ok]
          | bool b => simp [scanSheets, hp, ht, except_bind_ok]
          | null => simp [scanSheets, hp, ht, except_bind_ok]
          | arr a => simp [scanSheets, hp, ht, except_bind_ok]
          | obj o => simp [scanSheets, hp, ht, except_bind_ok]

/-- A scan over descriptors it all skips reports the `None` sentinel. -/
theorem scanSheets_of_all_skip (name : String) :
    ∀ l : List J, l.all (scanSkips name) = true →
      scanSheets name l = Except.ok J.null := by
  intro l h
  induction l with
  | nil => rfl
  | cons s rest ih =>
      rw [List.all_cons, Bool.and_eq_true] at h
      rw [scanSheets_cons_skip name s rest h.1]
      exact ih h.2

/-- Claim C7: `update_cells` and `batch_update_cells` each issue exactly one
remote write call with `valueInputOption = "USER_ENTERED"`; every range
sent is the given sheet name, `!`, and the given A1 sub-range, all ranges
of a batch qualified with the same sheet; in particular
`update_cells("abc123","Sheet1","A1:B2",[[1,2],[3,4]])` writes against
`Sheet1!A1:B2`. -/
theorem C7_write_calls_qualified_user_entered :
    (∀ (env : Env) (sid sheet range : String) (data : List (List J)),
       update_cells env sid sheet range data =
         ([ApiCall.valuesUpdate sid (sheet ++ "!" ++ range) "USER_ENTERED"
             (J.obj [("values", J.arr2 data)])],
          env (ApiCall.valuesUpdate sid (sheet ++ "!" ++ range) "USER_ENTERED"
             (J.obj [("values", J.arr2 data)]))))
  ∧ (∀ (env : Env) (sid sheet : String)
       (ranges : List (String × List (List J))),
       batch_update_cells env sid sheet ranges =
         ([ApiCall.valuesBatchUpdate sid
             (J.obj [("valueInputOption", J.str "USER_ENTERED"),
                     ("data", J.arr (ranges.map (fun rv =>
                       J.obj [("range", J.str (sheet ++ "!" ++ rv.1)),
                              ("values", J.arr2 rv.2)])))])],
          env (ApiCall.valuesBatchUpdate sid
             (J.obj [("valueInputOption", J.str "USER_ENTERED"),
                     ("data", J.arr (ranges.map (fun rv =>
                       J.obj [("range", J.str (sheet ++ "!" ++ rv.1)),
                              ("values", J.arr2 rv.2)])))]))))
  ∧ (∀ env : Env,
       (update_cells env "abc123" "Sheet1" "A1:B2"
          [[J.num 1, J.num 2], [J.num 3, J.num 4]]).1 =
         [ApiCall.valuesUpdate "abc123" "Sheet1!A1:B2" "USER_ENTERED"
            (J.obj [("values",
              J.arr [J.arr [J.num 1, J.num 2], J.arr [J.num 3, J.num 4]])])]) :=
  ⟨fun _ _ _ _ _ => rfl, fun _ _ _ _ => rfl, fun _ => rfl⟩

/-- Every single dispatch hands back the context it received. -/
theorem dispatchTool_fst (ctx : SpreadsheetContext) (tc : ToolCall) :
    (dispatchTool ctx tc).1 = ctx := by
  cases tc <;> rfl

/-- Claim C8: the session context is immutable after construction: every
tool invocation only reads it, and its three fields (sheets client, drive
client, folder id) are identical before and after any sequence of tool
invocations. -/
theorem C8_session_context_immutable :
    ∀ (ctx : SpreadsheetContext) (tcs : List ToolCall),
      (runToolCalls ctx tcs).1 = ctx ∧
      (runToolCalls ctx tcs).1.sheets_service = ctx.sheets_service ∧
      (runToolCalls ctx tcs).1.drive_service = ctx.drive_service ∧
      (runToolCalls ctx tcs).1.folder_id = ctx.folder_id := by
  have main : ∀ (tcs : List ToolCall) (ctx : SpreadsheetContext),
      (runToolCalls ctx tcs).1 = ctx := by
    intro tcs
    induction tcs with
    | nil => intro ctx; rfl
    | cons tc rest ih =>
        intro ctx
        show (runToolCalls (dispatchTool ctx tc).1 rest).1 = ctx
        rw [dispatchTool_fst, ih]
  intro ctx tcs
  exact ⟨main tcs ctx, by rw [main tcs ctx], by rw [main tcs ctx],
         by rw [main tcs ctx]⟩

/-- A startup environment with no service-account key and a valid cached
OAuth token. -/
def authEnvCachedValid : AuthEnv :=
  { saConfigured := false
    saLoadOk := false
    tokenFileExists := true
    tokenLoadOk := true
    cached := { valid := true, expired := false, refresh_token := false }
    refreshOk := true
    flowOk := true }

/-- Claim C4 (counterexample): with no service-account key configured and a
valid cached token, the resolver takes the OAuth path yet writes nothing to
the token cache file — the persist step sits inside
`if not creds or not creds.valid`, so a valid cached token is returned
without being re-persisted, contradicting the claim that the OAuth path
always persists. -/
theorem C4_counterexample :
    oauthPath authEnvCachedValid = true ∧
    resolveCredentials authEnvCachedValid =
      Except.ok { source := CredSource.cachedToken, tokenWritten := false } :=
  ⟨rfl, rfl⟩

/-- Claim C4 (amended): in the OAuth path the token is persisted
(overwriting the cache file) exactly when the cached token was absent or
not valid — i.e. when a refresh or an interactive flow ran; a valid cached
token is returned without a write, and the service-account path never
writes a token to disk. -/
theorem C4_token_persisted_iff_renewed (env : AuthEnv) (r : ResolveResult)
    (h : resolveCredentials env = Except.ok r) :
    (r.tokenWritten = true ↔
       (oauthPath env = true ∧
        ¬(env.tokenFileExists = true ∧ env.cached.valid = true))) ∧
    (r.source = CredSource.serviceAccount → r.tokenWritten = false) := by
  obtain ⟨sa, sok, tex, tok, ⟨v, ex, rt⟩, rok, fok⟩ := env
  cases sa <;> cases sok <;> cases tex <;> cases tok <;> cases v <;> cases ex
    <;> cases rt <;> cases rok <;> cases fok <;>
    simp_all [resolveCredentials, oauthPath] <;>
    (try subst h) <;> simp

/-- Claim C4 witness: the amended theorem applied to the concrete
valid-cached-token environment. -/
theorem C4_token_persisted_iff_renewed_witness :
    (({ source := CredSource.cachedToken, tokenWritten := false } :
        ResolveResult).tokenWritten = true ↔
      (oauthPath authEnvCachedValid = true ∧
       ¬(authEnvCachedValid.tokenFileExists = true ∧
         authEnvCachedValid.cached.valid = true))) ∧
    (({ source := CredSource.cachedToken, tokenWritten := false } :
        ResolveResult).source = CredSource.serviceAccount →
      ({ source := CredSource.cachedToken, tokenWritten := false } :
        ResolveResult).tokenWritten = false) :=
  C4_token_persisted_iff_renewed authEnvCachedValid
    { source := CredSource.cachedToken, tokenWritten := false } rfl

/-- A well-formed sheet descriptor with title `t` and sheet id `i`. -/
def mkDesc (t : String) (i : Int) : J :=
  J.obj [("properties", J.obj [("title", J.str t), ("sheetId", J.num i)])]

/-- Claim C6: the sheet-name lookup scans the descriptor list in the order
returned by the remote service and yields the sheet id of the first
descriptor whose title equals the target exactly; every earlier descriptor
is skipped precisely because its title is not literally the target string
(so substrings, superstrings and case variants do not match). -/
theorem C6_lookup_first_exact_title
    (name : String) (l₁ l₂ : List J) (d p sid : J)
    (hskip : l₁.all (scanSkips name) = true)
    (hd : d.index "properties" = Except.ok p)
    (ht : p.index "title" = Except.ok (J.str name))
    (hs : p.index "sheetId" = Except.ok sid) :
    scanSheets name (l₁ ++ d :: l₂) = Except.ok sid := by
  induction l₁ with
  | nil => simp [scanSheets, hd, ht, except_bind_ok, hs]
  | cons s rest ih =>
      rw [List.all_cons, Bool.and_eq_true] at hskip
      rw [List.cons_append, scanSheets_cons_skip name s _ hskip.1]
      exact ih hskip.2

/-- Claim C6 witness: with descriptors titled `data` (case variant),
`Dat` (proper substring), `DataX` (superstring) and two titled `Data`,
looking up `Data` returns the sheet id of the first exact match. -/
theorem C6_lookup_first_exact_title_witness :
    scanSheets "Data" [mkDesc "data" 1, mkDesc "Dat" 2, mkDesc "DataX" 3,
      mkDesc "Data" 4, mkDesc "Data" 5] = Except.ok (J.num 4) :=
  C6_lookup_first_exact_title "Data"
    [mkDesc "data" 1, mkDesc "Dat" 2, mkDesc "DataX" 3] [mkDesc "Data" 5]
    (mkDesc "Data" 4) (J.obj [("title", J.str "Data"), ("sheetId", J.num 4)])
    (J.num 4) rfl rfl rfl rfl

/-- A remote service whose spreadsheets hold a single sheet titled
`Existing`, and which rejects every other call. -/
def envC1 : Env := fun c =>
  match c with
  | ApiCall.getSpreadsheet _ =>
      Except.ok (J.obj [("sheets", J.arr [mkDesc "Existing" 1])])
  | _ => Except.error "unexpected remote call"

/-- Claim C1 (counterexample): when the source-sheet lookup of `copy_sheet`
finds no match the structured result is
`{"error": "Source sheet '<name>' not found"}` — not the claimed shape
`{"error": "Sheet '<name>' not found"}`. -/
theorem C1_counterexample :
    (copy_sheet envC1 "book" "Missing" "dst" "New").2 =
      Except.ok (J.obj [("error", J.str "Source sheet 'Missing' not found")]) ∧
    "Source sheet 'Missing' not found" ≠ "Sheet 'Missing' not found" :=
  ⟨rfl, by decide⟩

/-- Claim C1 (amended): when no sheet descriptor's title matches the target
name, each of `add_rows`, `add_columns`, `rename_sheet` and `copy_sheet`
returns a structured error result as a normal return value (no fault) and
issues no call beyond the metadata fetch; the error string is
`Sheet '<name>' not found` for the first three and
`Source sheet '<name>' not found` for `copy_sheet`. -/
theorem C1_lookup_miss_structured_error
    (env : Env) (sid name : String) (meta : J) (l : List J)
    (henv : env (ApiCall.getSpreadsheet sid) = Except.ok meta)
    (hsheets : meta.index "sheets" = Except.ok (J.arr l))
    (hnone : l.all (scanSkips name) = true) :
    (∀ (count : Int) (start_row : Option Int),
       add_rows env sid name count start_row =
         ([ApiCall.getSpreadsheet sid],
          Except.ok (J.obj [("error",
            J.str ("Sheet '" ++ name ++ "' not found"))])))
  ∧ (∀ (count : Int) (start_column : Option Int),
       add_columns env sid name count start_column =
         ([ApiCall.getSpreadsheet sid],
          Except.ok (J.obj [("error",
            J.str ("Sheet '" ++ name ++ "' not found"))])))
  ∧ (∀ new_name : String,
       rename_sheet env sid name new_name =
         ([ApiCall.getSpreadsheet sid],
          Except.ok (J.obj [("error",
            J.str ("Sheet '" ++ name ++ "' not found"))])))
  ∧ (∀ dst dst_name : String,
       copy_sheet env sid name dst dst_name =
         ([ApiCall.getSpreadsheet sid],
          Except.ok (J.obj [("error",
            J.str ("Source sheet '" ++ name ++ "' not found"))]))) := by
  have hnull := scanSheets_of_all_skip name l hnone
  refine ⟨fun count start_row => ?_, fun count start_column => ?_,
          fun new_name => ?_, fun dst dst_name => ?_⟩
  · simp [add_rows, tbind_def, tbind, callApi, liftE, henv, hsheets,
      J.asArr, hnull, tpure_def]
  · simp [add_columns, tbind_def, tbind, callApi, liftE, henv, hsheets,
      J.asArr, hnull, tpure_def]
  · simp [rename_sheet, tbind_def, tbind, callApi, liftE, henv, hsheets,
      J.asArr, hnull, tpure_def]
  · simp [copy_sheet, tbind_def, tbind, callApi, liftE, henv, hsheets,
      J.asArr, hnull, tpure_def]

/-- Claim C1 witness: the amended theorem applied to a spreadsheet whose
only sheet is titled `Existing`, looking up `Missing`. -/
theorem C1_lookup_miss_structured_error_witness :
    add_rows envC1 "book" "Missing" 2 none =
      ([ApiCall.getSpreadsheet "book"],
       Except.ok (J.obj [("error", J.str "Sheet 'Missing' not found")])) ∧
    copy_sheet envC1 "book" "Missing" "dst" "New" =
      ([ApiCall.getSpreadsheet "book"],
       Except.ok (J.obj [("error", J.str "Source sheet 'Missing' not found")])) := by
  have h := C1_lookup_miss_structured_error envC1 "book" "Missing"
    (J.obj [("sheets", J.arr [mkDesc "Existing" 1])]) [mkDesc "Existing" 1]
    rfl rfl rfl
  exact ⟨h.1 2 none, h.2.2.2 "dst" "New"⟩

/-- A remote service whose spreadsheets hold a single sheet `Tab` with
sheet id 7; structural updates succeed with an empty reply object. -/
def envC5 : Env := fun c =>
  match c with
  | ApiCall.getSpreadsheet _ =>
      Except.ok (J.obj [("sheets", J.arr [mkDesc "Tab" 7])])
  | ApiCall.batchUpdate _ _ => Except.ok (J.obj [])
  | _ => Except.error "unexpected remote call"

/-- Claim C5: after a successful sheet-id lookup, `add_rows` and
`add_columns` send exactly one structural-insert request; with the start
index omitted it has `startIndex = 0`, `endIndex = count` and
`inheritFromBefore = false`; with start index `s` it has
`startIndex = s`, `endIndex = s + count` and `inheritFromBefore` true
exactly when `s > 0`. -/
theorem C5_insert_request_shape
    (env : Env) (sid name : String) (meta : J) (l : List J) (n : Int)
    (henv : env (ApiCall.getSpreadsheet sid) = Except.ok meta)
    (hsheets : meta.index "sheets" = Except.ok (J.arr l))
    (hscan : scanSheets name l = Except.ok (J.num n)) :
    (∀ count : Int,
       (add_rows env sid name count none).1 =
         [ApiCall.getSpreadsheet sid,
          ApiCall.batchUpdate sid (J.obj [("requests", J.arr [J.obj [
            ("insertDimension", J.obj [
              ("range", J.obj [("sheetId", J.num n), ("dimension", J.str "ROWS"),
                ("startIndex", J.num 0), ("endIndex", J.num count)]),
              ("inheritFromBefore", J.bool false)])]])])])
  ∧ (∀ count s : Int,
       (add_rows env sid name count (some s)).1 =
         [ApiCall.getSpreadsheet sid,
          ApiCall.batchUpdate sid (J.obj [("requests", J.arr [J.obj [
            ("insertDimension", J.obj [
              ("range", J.obj [("sheetId", J.num n), ("dimension", J.str "ROWS"),
                ("startIndex", J.num s), ("endIndex", J.num (s + count))]),
              ("inheritFromBefore", J.bool (decide (s > 0)))])]])])])
  ∧ (∀ count : Int,
       (add_columns env sid name count none).1 =
         [ApiCall.getSpreadsheet sid,
          ApiCall.batchUpdate sid (J.obj [("requests", J.arr [J.obj [
            ("insertDimension", J.obj [
              ("range", J.obj [("sheetId", J.num n), ("dimension", J.str "COLUMNS"),
                ("startIndex", J.num 0), ("endIndex", J.num count)]),
              ("inheritFromBefore", J.bool false)])]])])])
  ∧ (∀ count s : Int,
       (add_columns env sid name count (some s)).1 =
         [ApiCall.getSpreadsheet sid,
          ApiCall.batchUpdate sid (J.obj [("requests", J.arr [J.obj [
            ("insertDimension", J.obj [
              ("range", J.obj [("sheetId", J.num n), ("dimension", J.str "COLUMNS"),
                ("startIndex", J.num s), ("endIndex", J.num (s + count))]),
              ("inheritFromBefore", J.bool (decide (s > 0)))])]])])]) := by
  refine ⟨fun count => ?_, fun count s => ?_, fun count => ?_, fun count s => ?_⟩
  · simp [add_rows, tbind_def, tbind, callApi, liftE, henv, hsheets,
      J.asArr, hscan, insertDimensionBody]
  · simp [add_rows, tbind_def, tbind, callApi, liftE, henv, hsheets,
      J.asArr, hscan, insertDimensionBody]
  · simp [add_columns, tbind_def, tbind, callApi, liftE, henv, hsheets,
      J.asArr, hscan, insertDimensionBody]
  · simp [add_columns, tbind_def, tbind, callApi, liftE, henv, hsheets,
      J.asArr, hscan, insertDimensionBody]

/-- Claim C5 witness: the request shapes at a concrete spreadsheet
(`count = 3`, start omitted / `2` / `0`). -/
theorem C5_insert_request_shape_witness :
    (add_rows envC5 "book" "Tab" 3 none).1 =
      [ApiCall.getSpreadsheet "book",
       ApiCall.batchUpdate "book" (J.obj [("requests", J.arr [J.obj [
         ("insertDimension", J.obj [
           ("range", J.obj [("sheetId", J.num 7), ("dimension", J.str "ROWS"),
             ("startIndex", J.num 0), ("endIndex", J.num 3)]),
           ("inheritFromBefore", J.bool false)])]])])] ∧
    (add_rows envC5 "book" "Tab" 3 (some 2)).1 =
      [ApiCall.getSpreadsheet "book",
       ApiCall.batchUpdate "book" (J.obj [("requests", J.arr [J.obj [
         ("insertDimension", J.obj [
           ("range", J.obj [("sheetId", J.num 7), ("dimension", J.str "ROWS"),
             ("startIndex", J.num 2), ("endIndex", J.num 5)]),
           ("inheritFromBefore", J.bool true)])]])])] ∧
    (add_columns envC5 "book" "Tab" 3 (some 0)).1 =
      [ApiCall.getSpreadsheet "book",
       ApiCall.batchUpdate "book" (J.obj [("requests", J.arr [J.obj [
         ("insertDimension", J.obj [
           ("range", J.obj [("sheetId", J.num 7), ("dimension", J.str "COLUMNS"),
             ("startIndex", J.num 0), ("endIndex", J.num 3)]),
           ("inheritFromBefore", J.bool false)])]])])] := by
  have h := C5_insert_request_shape envC5 "book" "Tab"
    (J.obj [("sheets", J.arr [mkDesc "Tab" 7])]) [mkDesc "Tab" 7] 7
    rfl rfl rfl
  exact ⟨h.1 3, h.2.1 3 2, h.2.2.2 3 0⟩

/-- Claim C2: after the source-sheet lookup, `copy_sheet` issues exactly
one further remote call (the copy) when the copied sheet's default title
already equals the requested destination name, and exactly two (copy then
rename) when it differs; the result carries a `rename` key iff the rename
call was issued. -/
theorem C2_copy_one_or_two_calls
    (env : Env) (src src_name dst dst_name : String)
    (meta : J) (l : List J) (n : Int) (kvs : List (String × J))
    (t : String) (csid rr : J)
    (henv : env (ApiCall.getSpreadsheet src) = Except.ok meta)
    (hsheets : meta.index "sheets" = Except.ok (J.arr l))
    (hscan : scanSheets src_name l = Except.ok (J.num n))
    (hcopy : env (ApiCall.copyTo src (J.num n)
        (J.obj [("destinationSpreadsheetId", J.str dst)])) =
      Except.ok (J.obj kvs))
    (htitle : lookupKey "title" kvs = some (J.str t))
    (hsid : (J.obj kvs).index "sheetId" = Except.ok csid)
    (hrename : env (ApiCall.batchUpdate dst (updateSheetTitleBody csid dst_name)) =
      Except.ok rr) :
    (t = dst_name →
       copy_sheet env src src_name dst dst_name =
         ([ApiCall.getSpreadsheet src,
           ApiCall.copyTo src (J.num n)
             (J.obj [("destinationSpreadsheetId", J.str dst)])],
          Except.ok (J.obj [("copy", J.obj kvs)])))
  ∧ (t ≠ dst_name →
       copy_sheet env src src_name dst dst_name =
         ([ApiCall.getSpreadsheet src,
           ApiCall.copyTo src (J.num n)
             (J.obj [("destinationSpreadsheetId", J.str dst)]),
           ApiCall.batchUpdate dst (updateSheetTitleBody csid dst_name)],
          Except.ok (J.obj [("copy", J.obj kvs), ("rename", rr)])))
  ∧ (∀ res : J, (copy_sheet env src src_name dst dst_name).2 = Except.ok res →
       (res.hasKey "rename" = true ↔ t ≠ dst_name)) := by
  have hr1 : t = dst_name →
      copy_sheet env src src_name dst dst_name =
        ([ApiCall.getSpreadsheet src,
          ApiCall.copyTo src (J.num n)
            (J.obj [("destinationSpreadsheetId", J.str dst)])],
         Except.ok (J.obj [("copy", J.obj kvs)])) := by
    intro he
    have hnr : needsRename (J.obj kvs) dst_name = false := by
      simp [needsRename, htitle, he]
    simp [copy_sheet, tbind_def, tbind, callApi, liftE, henv, hsheets,
      J.asArr, hscan, hcopy, hnr, tpure_def]
  have hr2 : t ≠ dst_name →
      copy_sheet env src src_name dst dst_name =
        ([ApiCall.getSpreadsheet src,
          ApiCall.copyTo src (J.num n)
            (J.obj [("destinationSpreadsheetId", J.str dst)]),
          ApiCall.batchUpdate dst (updateSheetTitleBody csid dst_name)],
         Except.ok (J.obj [("copy", J.obj kvs), ("rename", rr)])) := by
    intro hne
    have hnr : needsRename (J.obj kvs) dst_name = true := by
      simp [needsRename, htitle]
      exact hne
    simp [copy_sheet, tbind_def, tbind, callApi, liftE, henv, hsheets,
      J.asArr, hscan, hcopy, hnr, hsid, hrename, tpure_def]
  refine ⟨hr1, hr2, fun res hres => ?_⟩
  by_cases he : t = dst_name
  · rw [hr1 he] at hres
    simp only [Except.ok.injEq] at hres
    subst hres
    simp [J.hasKey, lookupKey, he]
  · rw [hr2 he] at hres
    simp only [Except.ok.injEq] at hres
    subst hres
    simp [J.hasKey, lookupKey, he]

/-- A remote service with a source sheet `Src` (id 7) whose copy response
has sheet id 9 and default title `Copy of Src`. -/
def envC2 : Env := fun c =>
  match c with
  | ApiCall.getSpreadsheet _ =>
      Except.ok (J.obj [("sheets", J.arr [mkDesc "Src" 7])])
  | ApiCall.copyTo _ _ _ =>
      Except.ok (J.obj [("sheetId", J.num 9), ("title", J.str "Copy of Src")])
  | ApiCall.batchUpdate _ _ => Except.ok (J.obj [("replies", J.arr [])])
  | _ => Except.error "unexpected remote call"

/-- Claim C2 witness: requesting the default title issues one post-lookup
call and no `rename` key; requesting a different name issues copy then
rename and the result carries both keys. -/
theorem C2_copy_one_or_two_calls_witness :
    copy_sheet envC2 "s" "Src" "d" "Copy of Src" =
      ([ApiCall.getSpreadsheet "s",
        ApiCall.copyTo "s" (J.num 7)
          (J.obj [("destinationSpreadsheetId", J.str "d")])],
       Except.ok (J.obj [("copy",
         J.obj [("sheetId", J.num 9), ("title", J.str "Copy of Src")])])) ∧
    copy_sheet envC2 "s" "Src" "d" "New" =
      ([ApiCall.getSpreadsheet "s",
        ApiCall.copyTo "s" (J.num 7)
          (J.obj [("destinationSpreadsheetId", J.str "d")]),
        ApiCall.batchUpdate "d" (updateSheetTitleBody (J.num 9) "New")],
       Except.ok (J.obj [("copy",
          J.obj [("sheetId", J.num 9), ("title", J.str "Copy of Src")]),
         ("rename", J.obj [("replies", J.arr [])])])) := by
  have h1 := C2_copy_one_or_two_calls envC2 "s" "Src" "d" "Copy of Src"
    (J.obj [("sheets", J.arr [mkDesc "Src" 7])]) [mkDesc "Src" 7] 7
    [("sheetId", J.num 9), ("title", J.str "Copy of Src")]
    "Copy of Src" (J.num 9) (J.obj [("replies", J.arr [])])
    rfl rfl rfl rfl rfl rfl rfl
  have h2 := C2_copy_one_or_two_calls envC2 "s" "Src" "d" "New"
    (J.obj [("sheets", J.arr [mkDesc "Src" 7])]) [mkDesc "Src" 7] 7
    [("sheetId", J.num 9), ("title", J.str "Copy of Src")]
    "Copy of Src" (J.num 9) (J.obj [("replies", J.arr [])])
    rfl rfl rfl rfl rfl rfl rfl
  exact ⟨h1.1 rfl, h2.2.1 (by decide)⟩

/-- Claim C9: when the copy response carries no `title` field, no rename
call is issued and the result is `{"copy": <response>}` with no `rename`
key, even though the requested destination name may differ from the copied
sheet's actual title. -/
theorem C9_copy_response_without_title
    (env : Env) (src src_name dst dst_name : String)
    (meta : J) (l : List J) (n : Int) (kvs : List (String × J))
    (henv : env (ApiCall.getSpreadsheet src) = Except.ok meta)
    (hsheets : meta.index "sheets" = Except.ok (J.arr l))
    (hscan : scanSheets src_name l = Except.ok (J.num n))
    (hcopy : env (ApiCall.copyTo src (J.num n)
        (J.obj [("destinationSpreadsheetId", J.str dst)])) =
      Except.ok (J.obj kvs))
    (hnotitle : lookupKey "title" kvs = none) :
    copy_sheet env src src_name dst dst_name =
      ([ApiCall.getSpreadsheet src,
        ApiCall.copyTo src (J.num n)
          (J.obj [("destinationSpreadsheetId", J.str dst)])],
       Except.ok (J.obj [("copy", J.obj kvs)])) ∧
    (J.obj [("copy", J.obj kvs)]).hasKey "rename" = false := by
  have hnr : needsRename (J.obj kvs) dst_name = false := by
    simp [needsRename, hnotitle]
  refine ⟨?_, rfl⟩
  simp [copy_sheet, tbind_def, tbind, callApi, liftE, henv, hsheets,
    J.asArr, hscan, hcopy, hnr, tpure_def]

/-- A remote service whose copy response has a sheet id but no title. -/
def envC9 : Env := fun c =>
  match c with
  | ApiCall.getSpreadsheet _ =>
      Except.ok (J.obj [("sheets", J.arr [mkDesc "Src" 7])])
  | ApiCall.copyTo _ _ _ => Except.ok (J.obj [("sheetId", J.num 9)])
  | _ => Except.error "unexpected remote call"

/-- Claim C9 witness: destination name `New` certainly differs from the
copied sheet's actual title, yet no rename is issued because the copy
response has no `title` field. -/
theorem C9_copy_response_without_title_witness :
    copy_sheet envC9 "s" "Src" "d" "New" =
      ([ApiCall.getSpreadsheet "s",
        ApiCall.copyTo "s" (J.num 7)
          (J.obj [("destinationSpreadsheetId", J.str "d")])],
       Except.ok (J.obj [("copy", J.obj [("sheetId", J.num 9)])])) :=
  (C9_copy_response_without_title envC9 "s" "Src" "d" "New"
    (J.obj [("sheets", J.arr [mkDesc "Src" 7])]) [mkDesc "Src" 7] 7
    [("sheetId", J.num 9)] rfl rfl rfl rfl rfl).1

/-- Claim C3: with a working folder configured, whatever the drive service
does (in particular when the parents fetch or the move call fails), the
folder-move fault is caught: `create_spreadsheet` returns normally, the
result carries the created `spreadsheetId`, and its only fields are
`spreadsheetId`, `title`, `sheets` and `folder` — no folder-move
confirmation.  The conclusion holds for every `drive_env`, so it is
independent of the move's outcome. -/
theorem C3_folder_move_failure_caught
    (sheets_env drive_env : Env) (f title : String)
    (sp props sv sid rtitle : J) (sl stitles : List J)
    (hcreate : sheets_env (ApiCall.createSpreadsheet
        (J.obj [("properties", J.obj [("title", J.str title)])])
        "spreadsheetId,properties,sheets") = Except.ok sp)
    (hsid : sp.getE "spreadsheetId" J.null = Except.ok sid)
    (hprops : sp.getE "properties" (J.obj []) = Except.ok props)
    (htitle : props.getE "title" (J.str title) = Except.ok rtitle)
    (hsv : sp.getE "sheets" (J.arr []) = Except.ok sv)
    (harr : sv.asArr = Except.ok sl)
    (hst : createdSheetTitles sl = Except.ok stitles) :
    (create_spreadsheet sheets_env drive_env (some f) title).2 =
      Except.ok (J.obj [("spreadsheetId", sid), ("title", rtitle),
        ("sheets", J.arr stitles), ("folder", J.str f)]) := by
  simp [create_spreadsheet, tbind_def, tbind, callApi, liftE, hcreate, hsid,
    attempt, hprops, htitle, hsv, harr, hst, tpure_def]

/-- A sheets service whose create call returns a spreadsheet `NEW123`
titled `Budget` with one default sheet. -/
def envC3sheets : Env := fun c =>
  match c with
  | ApiCall.createSpreadsheet _ _ =>
      Except.ok (J.obj [("spreadsheetId", J.str "NEW123"),
        ("properties", J.obj [("title", J.str "Budget")]),
        ("sheets", J.arr [J.obj [("properties",
          J.obj [("title", J.str "Sheet1"), ("sheetId", J.num 0)])]])])
  | _ => Except.error "unexpected remote call"

/-- A drive service on which every call fails. -/
def envC3driveFail : Env := fun _ => Except.error "403: cannot move file"

/-- Claim C3 witness: with the drive service failing every call, creation
in folder `FOLDER9` still returns the created id without a fault. -/
theorem C3_folder_move_failure_caught_witness :
    (create_spreadsheet envC3sheets envC3driveFail (some "FOLDER9") "Budget").2 =
      Except.ok (J.obj [("spreadsheetId", J.str "NEW123"),
        ("title", J.str "Budget"), ("sheets", J.arr [J.str "Sheet1"]),
        ("folder", J.str "FOLDER9")]) :=
  C3_folder_move_failure_caught envC3sheets envC3driveFail "FOLDER9" "Budget"
    (J.obj [("spreadsheetId", J.str "NEW123"),
      ("properties", J.obj [("title", J.str "Budget")]),
      ("sheets", J.arr [J.obj [("properties",
        J.obj [("title", J.str "Sheet1"), ("sheetId", J.num 0)])]])])
    (J.obj [("title", J.str "Budget")])
    (J.arr [J.obj [("properties",
      J.obj [("title", J.str "Sheet1"), ("sheetId", J.num 0)])]])
    (J.str "NEW123") (J.str "Budget")
    [J.obj [("properties",
      J.obj [("title", J.str "Sheet1"), ("sheetId", J.num 0)])]]
    [J.str "Sheet1"]
    rfl rfl rfl rfl rfl rfl rfl

/-- A metadata response that is an empty object. -/
def envC10empty : Env := fun c =>
  match c with
  | ApiCall.getSpreadsheet _ => Except.ok (J.obj [])
  | _ => Except.error "unexpected remote call"

/-- A metadata response whose `properties` lacks `title` and whose one
sheet descriptor lacks `gridProperties`. -/
def envC10noTitle : Env := fun c =>
  match c with
  | ApiCall.getSpreadsheet _ =>
      Except.ok (J.obj [("properties", J.obj []),
        ("sheets", J.arr [J.obj [("properties",
          J.obj [("title", J.str "A"), ("sheetId", J.num 1)])]])])
  | _ => Except.error "unexpected remote call"

/-- Claim C10: `get_spreadsheet_info` totalizes the optional fields of the
metadata response — a missing top-level `properties` or `title` yields the
title `"Unknown"`, a missing `sheets` yields an empty list, and a
descriptor without `gridProperties` yields an empty object — and the
result is the `json.dumps(·, indent=2)` string of `{title, sheets}`. -/
theorem C10_info_totalizes_missing_fields
    (env : Env) (sid : String) (sp props title sv : J) (sl infos : List J)
    (henv : env (ApiCall.getSpreadsheet sid) = Except.ok sp)
    (hprops : sp.getE "properties" (J.obj []) = Except.ok props)
    (htitle : props.getE "title" (J.str "Unknown") = Except.ok title)
    (hsv : sp.getE "sheets" (J.arr []) = Except.ok sv)
    (harr : sv.asArr = Except.ok sl)
    (hinfos : infoSheets sl = Except.ok infos) :
    get_spreadsheet_info env sid =
      ([ApiCall.getSpreadsheet sid],
       Except.ok (jsonDumps (J.obj [("title", title), ("sheets", J.arr infos)])))
  ∧ infoSheet (J.obj [("properties",
       J.obj [("title", J.str "A"), ("sheetId", J.num 1)])]) =
      Except.ok (J.obj [("title", J.str "A"), ("sheetId", J.num 1),
        ("gridProperties", J.obj [])])
  ∧ get_spreadsheet_info envC10empty "x" =
      ([ApiCall.getSpreadsheet "x"],
       Except.ok (jsonDumps (J.obj [("title", J.str "Unknown"),
         ("sheets", J.arr [])])))
  ∧ get_spreadsheet_info envC10noTitle "x" =
      ([ApiCall.getSpreadsheet "x"],
       Except.ok (jsonDumps (J.obj [("title", J.str "Unknown"),
         ("sheets", J.arr [J.obj [("title", J.str "A"), ("sheetId", J.num 1),
           ("gridProperties", J.obj [])]])])))
  ∧ jsonDumps (J.obj [("title", J.str "Unknown"), ("sheets", J.arr [])]) =
      "\x7b\n  \"title\": \"Unknown\",\n  \"sheets\": []\n\x7d" := by
  refine ⟨?_, rfl, rfl, rfl, rfl⟩
  simp [get_spreadsheet_info, tbind_def, tbind, callApi, liftE, henv, hprops,
    htitle, hsv, harr, hinfos, tpure_def]

/-- Claim C10 witness: the general projection applied to the concrete
no-title metadata response. -/
theorem C10_info_totalizes_missing_fields_witness :
    get_spreadsheet_info envC10noTitle "x" =
      ([ApiCall.getSpreadsheet "x"],
       Except.ok (jsonDumps (J.obj [("title", J.str "Unknown"),
         ("sheets", J.arr [J.obj [("title", J.str "A"), ("sheetId", J.num 1),
           ("gridProperties", J.obj [])]])]))) :=
  (C10_info_totalizes_missing_fields envC10noTitle "x"
    (J.obj [("properties", J.obj []),
      ("sheets", J.arr [J.obj [("properties",
        J.obj [("title", J.str "A"), ("sheetId", J.num 1)])]])])
    (J.obj []) (J.str "Unknown")
    (J.arr [J.obj [("properties",
      J.obj [("title", J.str "A"), ("sheetId", J.num 1)])]])
    [J.obj [("properties", J.obj [("title", J.str "A"), ("sheetId", J.num 1)])]]
    [J.obj [("title", J.str "A"), ("sheetId", J.num 1),
      ("gridProperties", J.obj [])]]
    rfl rfl rfl rfl rfl rfl).1

end MCPSheets
